import Mathlib

/-!
Shallow embedding of the appointment lifecycle and reminder scheduling
subsystem of the service-website repository
(src/backend/controllers/AppointmentController.js,
src/backend/services/AppointmentValidators.js, the reminder scheduler,
and the mongoose models), together with theorems settling the frozen
claims about it.

Timestamps are modelled as integers (milliseconds, as JavaScript Date
arithmetic produces). Mongo ObjectId values are modelled as naturals.
Optional / possibly-undefined fields are modelled with Option.
-/

namespace ServiceWebsite

/-- `status` enum of the Appointment schema. -/
inductive Status
  | SCHEDULED
  | COMPLETED
  | CANCELLED
  | RESCHEDULED
  deriving DecidableEq

/-- `serviceType` enum of the Appointment schema. -/
inductive ServiceType
  | REAL_ESTATE
  | INSURANCE
  | VISA
  | TAX
  | OTHER
  deriving DecidableEq

/-- User roles appearing in the permission checks of the controller. -/
inductive Role
  | ADMIN
  | AGENT
  | SUPPORT
  | USER
  deriving DecidableEq

/-- An embedded reminder sub-record: `{ time: Date, sent: Boolean }`. -/
structure Reminder where
  time : Int
  sent : Bool
  deriving DecidableEq

/-- The Appointment document (models/Appointment.js). -/
structure Appointment where
  id : Nat
  title : String
  description : String
  startTime : Int
  endTime : Int
  serviceType : ServiceType
  serviceId : Option Nat
  client : Nat
  staff : Nat
  location : Option String
  status : Status
  reminders : List Reminder
  created_at : Int
  updated_at : Int
  deriving DecidableEq

/-- A user document, reduced to the fields the appointment subsystem reads. -/
structure User where
  id : Nat
  role : Role
  deriving DecidableEq

/-- A real-estate document, reduced to the staff-resolution fields:
`owner` is required by the schema, `agent` is optional. -/
structure RealEstate where
  id : Nat
  owner : Nat
  agent : Option Nat
  deriving DecidableEq

/-- An insurance policy document, reduced to its optional `agent`. -/
structure Insurance where
  id : Nat
  agent : Option Nat
  deriving DecidableEq

/-- A visa application document, reduced to its optional `agent`. -/
structure Visa where
  id : Nat
  agent : Option Nat
  deriving DecidableEq

/-- A tax case document, reduced to its optional `taxProfessional`. -/
structure Tax where
  id : Nat
  taxProfessional : Option Nat
  deriving DecidableEq

/-- The document store visible to the appointment subsystem. -/
structure Db where
  users : List User
  appointments : List Appointment
  realEstates : List RealEstate
  insurances : List Insurance
  visas : List Visa
  taxes : List Tax
  deriving DecidableEq

/-- The JWT payload the controllers read from `req.user.payload`. -/
structure Payload where
  id : Nat
  isAdmin : Bool
  role : Role
  deriving DecidableEq

/-- Which referenced service record was missing (the four 404 branches of
the staff-resolution switch in `requestAppointment`). -/
inductive RefKind
  | property
  | policy
  | visa
  | tax
  deriving DecidableEq

/-- Structured errors, one constructor per early-return site of the
controllers and validators. -/
inductive ApptError
  | ValidationError (msgs : List String)
  | ReferenceNotFound (kind : RefKind)
  | NoAdminAvailable
  | AppointmentNotFound
  | UserNotFound
  | StaffUserNotFound
  | Forbidden
  | InvalidStatus
  | InvalidTransition
  deriving DecidableEq

/-- Outbound e-mail notifications (EmailService calls), by kind and
recipient. -/
inductive Notification
  | confirmation (client : Nat)
  | staffNew (staff : Nat)
  | statusChange (client : Nat)
  | staffCancelled (staff : Nat)
  | staffReassigned (prevStaff : Nat)
  | clientReassigned (client : Nat)
  | reminder (client : Nat) (timeframe : String)
  deriving DecidableEq

deriving instance DecidableEq for Except

/-- Outcome of a controller operation: the response (record or error),
the store after the call, and the notifications dispatched. -/
abbrev OpResult := Except ApptError Appointment × Db × List Notification

/-- `User.findById`. -/
def findUser (db : Db) (userId : Nat) : Option User :=
  db.users.find? (fun u => u.id == userId)

/-- `Appointment.findById`. -/
def findAppointment (db : Db) (apptId : Nat) : Option Appointment :=
  db.appointments.find? (fun a => a.id == apptId)

/-- `User.findOne({ role: 'ADMIN' })`: the first administrator in the
store's enumeration order. -/
def findAdmin (db : Db) : Option User :=
  db.users.find? (fun u => u.role == Role.ADMIN)

/-- `appointment.save()` on an existing document: replace the record with
the same id. -/
def saveAppointment (db : Db) (a : Appointment) : Db :=
  { db with appointments := db.appointments.map (fun b => if b.id == a.id then a else b) }

/-- The staff-resolution switch of `requestAppointment`
(AppointmentController.js lines 162-217): given the requested
`serviceType` and optional `serviceId`, the staff id determined from the
referenced catalog record, `none` when the switch leaves `staffId` null,
or the 404 error of the branch whose referenced record is missing. -/
def resolveStaff (db : Db) (st : ServiceType) (sid : Option Nat) :
    Except ApptError (Option Nat) :=
  match sid with
  | none => Except.ok none
  | some sid =>
    match st with
    | ServiceType.REAL_ESTATE =>
      match db.realEstates.find? (fun p => p.id == sid) with
      | none => Except.error (ApptError.ReferenceNotFound RefKind.property)
      | some p => Except.ok (some (p.agent.getD p.owner))
    | ServiceType.INSURANCE =>
      match db.insurances.find? (fun p => p.id == sid) with
      | none => Except.error (ApptError.ReferenceNotFound RefKind.policy)
      | some p => Except.ok p.agent
    | ServiceType.VISA =>
      match db.visas.find? (fun p => p.id == sid) with
      | none => Except.error (ApptError.ReferenceNotFound RefKind.visa)
      | some p => Except.ok p.agent
    | ServiceType.TAX =>
      match db.taxes.find? (fun p => p.id == sid) with
      | none => Except.error (ApptError.ReferenceNotFound RefKind.tax)
      | some p => Except.ok p.taxProfessional
    | ServiceType.OTHER => Except.ok none

/-- The full staff resolution of `requestAppointment` (lines 162-229):
the switch above followed by the admin fallback
`if (!staffId) { const admin = await User.findOne({ role: 'ADMIN' }); ... }`. -/
def resolveStaffId (db : Db) (st : ServiceType) (sid : Option Nat) :
    Except ApptError Nat :=
  match resolveStaff db st sid with
  | Except.error e => Except.error e
  | Except.ok (some s) => Except.ok s
  | Except.ok none =>
    match findAdmin db with
    | none => Except.error ApptError.NoAdminAvailable
    | some admin => Except.ok admin.id

/-- The request body of `POST /appointments`. -/
structure RequestInput where
  title : String
  description : String
  startTime : Int
  endTime : Int
  serviceType : ServiceType
  serviceId : Option Nat
  location : Option String
  deriving DecidableEq

/-- The two-entry reminder schedule built at creation:
24 hours and 1 hour before `startTime`, both unsent. -/
def mkReminders (startTime : Int) : List Reminder :=
  [{ time := startTime - 24 * 60 * 60 * 1000, sent := false },
   { time := startTime - 1 * 60 * 60 * 1000, sent := false }]

/-- The new document built by `requestAppointment` (lines 232-247). -/
def newAppointmentRecord (clientId : Nat) (newId : Nat) (i : RequestInput)
    (now : Int) (staffId : Nat) : Appointment :=
  { id := newId
    title := i.title
    description := i.description
    startTime := i.startTime
    endTime := i.endTime
    serviceType := i.serviceType
    serviceId := i.serviceId
    client := clientId
    staff := staffId
    location := i.location
    status := Status.SCHEDULED
    reminders := mkReminders i.startTime
    created_at := now
    updated_at := now }

/-- `requestAppointment` (lines 147-281): resolve the staff member, and on
success persist the new record and notify the client and the staff. -/
def requestAppointment (db : Db) (clientId : Nat) (newId : Nat)
    (i : RequestInput) (now : Int) : OpResult :=
  match resolveStaffId db i.serviceType i.serviceId with
  | Except.error e => (Except.error e, db, [])
  | Except.ok staffId =>
    let a := newAppointmentRecord clientId newId i now staffId
    (Except.ok a,
     { db with appointments := db.appointments ++ [a] },
     [Notification.confirmation clientId, Notification.staffNew staffId])

/-- `appointmentRequestValidator` (AppointmentValidators.js lines 16-63),
restricted to the checks expressible over the embedded types (string
format checks such as ISO8601 / MongoId are absorbed by typing): the
collected error messages, in source order. -/
def appointmentRequestValidator (now : Int) (i : RequestInput) : List String :=
  (if i.title.length = 0 then [("Title is required")] else []) ++
  (if i.title.length < 3 ∨ 100 < i.title.length
   then [("Title must be between 3 and 100 characters")] else []) ++
  (if i.startTime ≤ now then [("Start time must be in the future")] else []) ++
  (if i.endTime ≤ i.startTime then [("End time must be after start time")] else [])

/-- The `POST /appointments` route (AppointmentRoutes.js lines 25-29):
the request validator runs before the controller; any validation error
produces a 400 and the controller never executes. -/
def postAppointment (db : Db) (clientId : Nat) (newId : Nat)
    (i : RequestInput) (now : Int) : OpResult :=
  let errs := appointmentRequestValidator now i
  if errs = [] then requestAppointment db clientId newId i now
  else (Except.error (ApptError.ValidationError errs), db, [])

/-- The `PUT /appointments/:id` request body: the fields the caller may
send. `client` and `serviceType` stand for body keys outside the
controller's allowlist (they are always discarded). -/
structure UpdateFields where
  title : Option String := none
  description : Option String := none
  startTime : Option Int := none
  endTime : Option Int := none
  location : Option String := none
  status : Option Status := none
  reminders : Option (List Reminder) := none
  staff : Option Nat := none
  client : Option Nat := none
  serviceType : Option ServiceType := none
  deriving DecidableEq

/-- The effect of `Appointment.findByIdAndUpdate(id, filteredUpdates, ...)`
in `updateAppointment` (lines 322-350): only the allowlisted fields are
applied (`staff` only when the caller is an administrator), and
`updated_at` is stamped. -/
def applyUpdates (isAdmin : Bool) (a : Appointment) (u : UpdateFields)
    (now : Int) : Appointment :=
  { a with
    title := u.title.getD a.title
    description := u.description.getD a.description
    startTime := u.startTime.getD a.startTime
    endTime := u.endTime.getD a.endTime
    location := match u.location with
      | none => a.location
      | some l => some l
    status := u.status.getD a.status
    reminders := u.reminders.getD a.reminders
    staff := if isAdmin then u.staff.getD a.staff else a.staff
    updated_at := now }

/-- `updateAppointment` (lines 284-379): find the appointment, find the
calling user, allow only an administrator or the assigned staff member,
apply the allowlisted updates, and notify the client if the status
changed. -/
def updateAppointment (db : Db) (userId : Nat) (apptId : Nat)
    (u : UpdateFields) (now : Int) : OpResult :=
  match findAppointment db apptId with
  | none => (Except.error ApptError.AppointmentNotFound, db, [])
  | some a =>
    match findUser db userId with
    | none => (Except.error ApptError.UserNotFound, db, [])
    | some user =>
      if user.role ≠ Role.ADMIN ∧ a.staff ≠ userId then
        (Except.error ApptError.Forbidden, db, [])
      else
        let previousStatus := a.status
        let updated := applyUpdates (user.role == Role.ADMIN) a u now
        let notifs := if previousStatus ≠ updated.status
          then [Notification.statusChange updated.client] else []
        (Except.ok updated, saveAppointment db updated, notifs)

/-- The note `cancelAppointment` appends to the description
(`reason ? ...template... : ''`, line 425); the empty string is falsy in
JavaScript, so an empty reason appends nothing. -/
def cancelReasonText (reason : Option String) : String :=
  match reason with
  | none => ""
  | some r => if r = "" then "" else "\n\nCancellation reason: " ++ r

/-- `cancelAppointment` (lines 382-467): find the appointment, allow the
client, the assigned staff member or an administrator, require current
status `SCHEDULED` or `RESCHEDULED`, then cancel, append the reason, and
notify whichever of client/staff did not initiate. -/
def cancelAppointment (db : Db) (p : Payload) (apptId : Nat)
    (reason : Option String) (now : Int) : OpResult :=
  match findAppointment db apptId with
  | none => (Except.error ApptError.AppointmentNotFound, db, [])
  | some a =>
    if ¬(p.isAdmin = true ∨ p.role = Role.ADMIN) ∧ a.client ≠ p.id ∧ a.staff ≠ p.id then
      (Except.error ApptError.Forbidden, db, [])
    else if ¬(a.status = Status.SCHEDULED ∨ a.status = Status.RESCHEDULED) then
      (Except.error ApptError.InvalidTransition, db, [])
    else
      let updated := { a with
        status := Status.CANCELLED
        description := a.description ++ cancelReasonText reason
        updated_at := now }
      let notifs :=
        (if a.client ≠ p.id then [Notification.statusChange a.client] else []) ++
        (if a.staff ≠ p.id then [Notification.staffCancelled a.staff] else [])
      (Except.ok updated, saveAppointment db updated, notifs)

/-- `reassignAppointment` (lines 559-647): the administrator check comes
first, then the existence of the new staff user, then the existence of
the appointment; on success the staff field is written and the new staff,
the previous staff (only when different and still existing) and the
client are notified. -/
def reassignAppointment (db : Db) (p : Payload) (apptId : Nat)
    (staffId : Nat) (now : Int) : OpResult :=
  if ¬(p.isAdmin = true ∨ p.role = Role.ADMIN) then
    (Except.error ApptError.Forbidden, db, [])
  else
    match findUser db staffId with
    | none => (Except.error ApptError.StaffUserNotFound, db, [])
    | some _ =>
      match findAppointment db apptId with
      | none => (Except.error ApptError.AppointmentNotFound, db, [])
      | some a =>
        let previousStaffId := a.staff
        let updated := { a with staff := staffId, updated_at := now }
        let notifs :=
          [Notification.staffNew staffId] ++
          (if previousStaffId ≠ staffId then
            match findUser db previousStaffId with
            | some _ => [Notification.staffReassigned previousStaffId]
            | none => []
           else []) ++
          [Notification.clientReassigned a.client]
        (Except.ok updated, saveAppointment db updated, notifs)

/-- `validStatuses.includes(status)` (lines 657-663): the request body's
status string parsed against the four valid values. -/
def parseStatus (s : String) : Option Status :=
  if s = "SCHEDULED" then some Status.SCHEDULED
  else if s = "COMPLETED" then some Status.COMPLETED
  else if s = "CANCELLED" then some Status.CANCELLED
  else if s = "RESCHEDULED" then some Status.RESCHEDULED
  else none

/-- The note `changeStatus` appends to the description (`if (notes)`,
lines 708-710); an empty string is falsy, so it appends nothing. -/
def statusNoteText (notes : Option String) : String :=
  match notes with
  | none => ""
  | some n => if n = "" then "" else "\n\nStatus change notes: " ++ n

/-- `changeStatus` (lines 650-746): validate the status value, find the
appointment, find the calling user, allow only an administrator or the
assigned staff member, reject leaving `CANCELLED` for a *different*
status, then write the new status, append the notes, and notify the
client. -/
def changeStatus (db : Db) (userId : Nat) (apptId : Nat) (statusStr : String)
    (notes : Option String) (now : Int) : OpResult :=
  match parseStatus statusStr with
  | none => (Except.error ApptError.InvalidStatus, db, [])
  | some st =>
    match findAppointment db apptId with
    | none => (Except.error ApptError.AppointmentNotFound, db, [])
    | some a =>
      match findUser db userId with
      | none => (Except.error ApptError.UserNotFound, db, [])
      | some user =>
        if user.role ≠ Role.ADMIN ∧ a.staff ≠ userId then
          (Except.error ApptError.Forbidden, db, [])
        else if a.status = Status.CANCELLED ∧ st ≠ Status.CANCELLED then
          (Except.error ApptError.InvalidTransition, db, [])
        else
          let updated := { a with
            status := st
            description := a.description ++ statusNoteText notes
            updated_at := now }
          (Except.ok updated, saveAppointment db updated,
           [Notification.statusChange a.client])

/-- `!reminder.sent && reminder.time <= now`: the per-reminder filter of
the scheduler loop (scheduler lines 125-127). -/
def reminderDue (now : Int) (r : Reminder) : Bool :=
  !r.sent && decide (r.time ≤ now)

/-- The lead-time bucketing of the scheduler (lines 131-138). -/
def timeframeText (startTime : Int) (reminderTime : Int) : String :=
  let d := startTime - reminderTime
  if 24 * 60 * 60 * 1000 ≤ d then "1 day"
  else if 60 * 60 * 1000 ≤ d then "1 hour"
  else "soon"

/-- Marking one reminder after its (successful) dispatch:
`sent = true` exactly when it was due and unsent. -/
def markSent (now : Int) (r : Reminder) : Reminder :=
  if reminderDue now r then { r with sent := true } else r

/-- The inner loop of the scheduler for one appointment, on the execution
where every dispatch succeeds: one reminder notification per due unsent
reminder, and each such reminder marked sent. -/
def scanAppointment (now : Int) (a : Appointment) : Appointment × List Notification :=
  ({ a with reminders := a.reminders.map (markSent now) },
   (a.reminders.filter (reminderDue now)).map
     (fun r => Notification.reminder a.client (timeframeText a.startTime r.time)))

/-- The Mongo query of the scheduler (lines 114-118): active status, some
reminder already due, and some reminder unsent (the two array conditions
are matched independently, as Mongo does without `$elemMatch`). -/
def matchesReminderQuery (now : Int) (a : Appointment) : Bool :=
  (a.status == Status.SCHEDULED || a.status == Status.RESCHEDULED) &&
  a.reminders.any (fun r => decide (r.time ≤ now)) &&
  a.reminders.any (fun r => !r.sent)

/-- One appointment's contribution to a scan: processed when it matches
the query, untouched otherwise. -/
def reminderStep (now : Int) (a : Appointment) : Appointment × List Notification :=
  if matchesReminderQuery now a then scanAppointment now a else (a, [])

/-- `sendAppointmentReminders` (scheduler lines 109-168), on the
execution where every dispatch succeeds: the store after the scan and
the reminder notifications dispatched. -/
def sendAppointmentReminders (now : Int) (db : Db) : Db × List Notification :=
  ({ db with appointments := db.appointments.map (fun a => (reminderStep now a).1) },
   (db.appointments.map (fun a => (reminderStep now a).2)).flatten)

/-- Concrete fixture: an administrator user. -/
def exAdmin : User := { id := 7, role := Role.ADMIN }

/-- Concrete fixture: an ordinary client user. -/
def exClient : User := { id := 5, role := Role.USER }

/-- Concrete fixture: an agent user. -/
def exAgent : User := { id := 9, role := Role.AGENT }

/-- Concrete fixture: a cancelled appointment of client 5, staff 9. -/
def exCancelled : Appointment :=
  { id := 1
    title := "t"
    description := "d"
    startTime := 100
    endTime := 200
    serviceType := ServiceType.OTHER
    serviceId := none
    client := 5
    staff := 9
    location := none
    status := Status.CANCELLED
    reminders := []
    created_at := 0
    updated_at := 0 }

/-- Concrete fixture: the same appointment, still scheduled. -/
def exScheduled : Appointment := { exCancelled with status := Status.SCHEDULED }

/-- Concrete fixture: a store holding the cancelled appointment. -/
def exDbCancelled : Db :=
  { users := [exAdmin, exClient, exAgent]
    appointments := [exCancelled]
    realEstates := []
    insurances := []
    visas := []
    taxes := [] }

/-- Concrete fixture: a store holding the scheduled appointment. -/
def exDbScheduled : Db := { exDbCancelled with appointments := [exScheduled] }

/-- Concrete fixture: a store holding no appointment at all. -/
def exDbEmpty : Db := { exDbCancelled with appointments := [] }

/-- Any error of `resolveStaff` is a missing-reference 404. -/
theorem resolveStaff_error_shape (db : Db) (st : ServiceType) (sid : Option Nat)
    (e : ApptError) (h : resolveStaff db st sid = Except.error e) :
    ∃ k, e = ApptError.ReferenceNotFound k := by
  unfold resolveStaff at h
  cases sid with
  | none => simp at h
  | some sid =>
    cases st <;> simp only at h <;>
      first
        | (rcases hfind : List.find? (fun p => p.id == sid) db.realEstates with _ | p <;>
            rw [hfind] at h <;> simp_all)
        | (rcases hfind : List.find? (fun p => p.id == sid) db.insurances with _ | p <;>
            rw [hfind] at h <;> simp_all)
        | (rcases hfind : List.find? (fun p => p.id == sid) db.visas with _ | p <;>
            rw [hfind] at h <;> simp_all)
        | (rcases hfind : List.find? (fun p => p.id == sid) db.taxes with _ | p <;>
            rw [hfind] at h <;> simp_all)
        | simp_all
    all_goals exact ⟨_, h.symm⟩

/-- Any error of the full staff resolution is a missing-reference 404 or
the missing-administrator failure. -/
theorem resolveStaffId_error_shape (db : Db) (st : ServiceType) (sid : Option Nat)
    (e : ApptError) (h : resolveStaffId db st sid = Except.error e) :
    (∃ k, e = ApptError.ReferenceNotFound k) ∨ e = ApptError.NoAdminAvailable := by
  unfold resolveStaffId at h
  rcases hres : resolveStaff db st sid with e2 | s <;> rw [hres] at h
  · exact Or.inl (resolveStaff_error_shape db st sid e (by simp_all))
  · cases s with
    | none =>
      rcases hadm : findAdmin db with _ | admin <;> rw [hadm] at h <;> simp_all
    | some s => simp_all

/-- C4: for every valid creation input with a resolvable staff target,
`request` persists and returns a record with status `SCHEDULED` and a
reminders list of exactly two entries, at `startTime` minus 24 hours and
`startTime` minus 1 hour, both with `sent = false`. -/
theorem requestAppointment_creates_scheduled
    (db : Db) (clientId newId : Nat) (i : RequestInput) (now : Int) (s : Nat)
    (h : resolveStaffId db i.serviceType i.serviceId = Except.ok s) :
    (requestAppointment db clientId newId i now).1
        = Except.ok (newAppointmentRecord clientId newId i now s)
      ∧ (requestAppointment db clientId newId i now).2.1.appointments
        = db.appointments ++ [newAppointmentRecord clientId newId i now s]
      ∧ (newAppointmentRecord clientId newId i now s).status = Status.SCHEDULED
      ∧ (newAppointmentRecord clientId newId i now s).reminders
        = [{ time := i.startTime - 24 * 60 * 60 * 1000, sent := false },
           { time := i.startTime - 1 * 60 * 60 * 1000, sent := false }] := by
  refine ⟨?_, ?_, rfl, rfl⟩ <;> simp [requestAppointment, h]

/-- C4 witness: a concrete creation (no service reference, admin user 7
as fallback staff) yields a SCHEDULED record with the two reminders. -/
theorem requestAppointment_creates_scheduled_witness :
    resolveStaffId
        { users := [{ id := 7, role := Role.ADMIN }], appointments := [],
          realEstates := [], insurances := [], visas := [], taxes := [] }
        ServiceType.OTHER none = Except.ok 7
      ∧ ((requestAppointment
            { users := [{ id := 7, role := Role.ADMIN }], appointments := [],
              realEstates := [], insurances := [], visas := [], taxes := [] }
            5 2
            { title := "abc", description := "", startTime := 100000000,
              endTime := 100000001, serviceType := ServiceType.OTHER,
              serviceId := none, location := none }
            50).1
          = Except.ok (newAppointmentRecord 5 2
              { title := "abc", description := "", startTime := 100000000,
                endTime := 100000001, serviceType := ServiceType.OTHER,
                serviceId := none, location := none } 50 7)
        ∧ (requestAppointment
            { users := [{ id := 7, role := Role.ADMIN }], appointments := [],
              realEstates := [], insurances := [], visas := [], taxes := [] }
            5 2
            { title := "abc", description := "", startTime := 100000000,
              endTime := 100000001, serviceType := ServiceType.OTHER,
              serviceId := none, location := none }
            50).2.1.appointments
          = [] ++ [newAppointmentRecord 5 2
              { title := "abc", description := "", startTime := 100000000,
                endTime := 100000001, serviceType := ServiceType.OTHER,
                serviceId := none, location := none } 50 7]
        ∧ (newAppointmentRecord 5 2
            { title := "abc", description := "", startTime := 100000000,
              endTime := 100000001, serviceType := ServiceType.OTHER,
              serviceId := none, location := none } 50 7).status = Status.SCHEDULED
        ∧ (newAppointmentRecord 5 2
            { title := "abc", description := "", startTime := 100000000,
              endTime := 100000001, serviceType := ServiceType.OTHER,
              serviceId := none, location := none } 50 7).reminders
          = [{ time := 100000000 - 24 * 60 * 60 * 1000, sent := false },
             { time := 100000000 - 1 * 60 * 60 * 1000, sent := false }]) :=
  ⟨by decide,
   requestAppointment_creates_scheduled
     { users := [{ id := 7, role := Role.ADMIN }], appointments := [],
       realEstates := [], insurances := [], visas := [], taxes := [] }
     5 2
     { title := "abc", description := "", startTime := 100000000,
       endTime := 100000001, serviceType := ServiceType.OTHER,
       serviceId := none, location := none }
     50 7 (by decide)⟩

/-- C6: if staff resolution fails at creation time (missing referenced
service record, or no administrator user), `request` returns that error
— which is necessarily `ReferenceNotFound` or `NoAdminAvailable` — the
store is unchanged (no appointment persisted) and no notification is
sent. -/
theorem requestAppointment_resolution_failure
    (db : Db) (clientId newId : Nat) (i : RequestInput) (now : Int)
    (e : ApptError)
    (h : resolveStaffId db i.serviceType i.serviceId = Except.error e) :
    requestAppointment db clientId newId i now = (Except.error e, db, [])
      ∧ ((∃ k, e = ApptError.ReferenceNotFound k) ∨ e = ApptError.NoAdminAvailable) := by
  exact ⟨by simp [requestAppointment, h],
         resolveStaffId_error_shape db i.serviceType i.serviceId e h⟩

/-- C6 witness: creating against a missing property id leaves the store
untouched and reports the missing reference. -/
theorem requestAppointment_resolution_failure_witness :
    resolveStaffId
        { users := [{ id := 7, role := Role.ADMIN }], appointments := [],
          realEstates := [], insurances := [], visas := [], taxes := [] }
        ServiceType.REAL_ESTATE (some 3)
      = Except.error (ApptError.ReferenceNotFound RefKind.property)
    ∧ (requestAppointment
        { users := [{ id := 7, role := Role.ADMIN }], appointments := [],
          realEstates := [], insurances := [], visas := [], taxes := [] }
        5 2
        { title := "abc", description := "", startTime := 100000000,
          endTime := 100000001, serviceType := ServiceType.REAL_ESTATE,
          serviceId := some 3, location := none }
        50
        = (Except.error (ApptError.ReferenceNotFound RefKind.property),
           { users := [{ id := 7, role := Role.ADMIN }], appointments := [],
             realEstates := [], insurances := [], visas := [], taxes := [] },
           [])
      ∧ ((∃ k, (ApptError.ReferenceNotFound RefKind.property : ApptError)
              = ApptError.ReferenceNotFound k)
         ∨ (ApptError.ReferenceNotFound RefKind.property : ApptError)
              = ApptError.NoAdminAvailable)) :=
  ⟨by decide,
   requestAppointment_resolution_failure
     { users := [{ id := 7, role := Role.ADMIN }], appointments := [],
       realEstates := [], insurances := [], visas := [], taxes := [] }
     5 2
     { title := "abc", description := "", startTime := 100000000,
       endTime := 100000001, serviceType := ServiceType.REAL_ESTATE,
       serviceId := some 3, location := none }
     50 (ApptError.ReferenceNotFound RefKind.property) (by decide)⟩

/-- C5: staff resolution priority. For `REAL_ESTATE` with a resolvable
service record the agent is returned when set, else the owner; for
`INSURANCE`, `VISA` and `TAX` the record's agent / tax professional is
returned when set; whenever the switch resolves nobody (including
`serviceType = OTHER` and absent `serviceId`), the deterministically
chosen administrator (first admin in store order) is returned. -/
theorem staffResolution_priority (db : Db) (sid : Nat) :
    (∀ p g, db.realEstates.find? (fun q => q.id == sid) = some p → p.agent = some g →
        resolveStaffId db ServiceType.REAL_ESTATE (some sid) = Except.ok g)
    ∧ (∀ p, db.realEstates.find? (fun q => q.id == sid) = some p → p.agent = none →
        resolveStaffId db ServiceType.REAL_ESTATE (some sid) = Except.ok p.owner)
    ∧ (∀ p g, db.insurances.find? (fun q => q.id == sid) = some p → p.agent = some g →
        resolveStaffId db ServiceType.INSURANCE (some sid) = Except.ok g)
    ∧ (∀ p g, db.visas.find? (fun q => q.id == sid) = some p → p.agent = some g →
        resolveStaffId db ServiceType.VISA (some sid) = Except.ok g)
    ∧ (∀ p g, db.taxes.find? (fun q => q.id == sid) = some p → p.taxProfessional = some g →
        resolveStaffId db ServiceType.TAX (some sid) = Except.ok g)
    ∧ (∀ (st : ServiceType) (sid0 : Option Nat), st = ServiceType.OTHER ∨ sid0 = none →
        resolveStaff db st sid0 = Except.ok none)
    ∧ (∀ (st : ServiceType) (sid0 : Option Nat) (admin : User),
        resolveStaff db st sid0 = Except.ok none → findAdmin db = some admin →
        resolveStaffId db st sid0 = Except.ok admin.id) := by
  refine ⟨?_, ?_, ?_, ?_, ?_, ?_, ?_⟩
  · intro p g hp hg; simp [resolveStaffId, resolveStaff, hp, hg]
  · intro p hp hg; simp [resolveStaffId, resolveStaff, hp, hg]
  · intro p g hp hg; simp [resolveStaffId, resolveStaff, hp, hg]
  · intro p g hp hg; simp [resolveStaffId, resolveStaff, hp, hg]
  · intro p g hp hg; simp [resolveStaffId, resolveStaff, hp, hg]
  · intro st sid0 h
    rcases h with h | h
    · subst h; cases sid0 <;> rfl
    · subst h; rfl
  · intro st sid0 admin hres hadm
    simp [resolveStaffId, hres, hadm]

/-- C5 witness: a property with both agent and owner resolves to the
agent; `OTHER` with no resolvable staff falls back to the first-listed
administrator. -/
theorem staffResolution_priority_witness :
    resolveStaffId
        { users := [{ id := 7, role := Role.ADMIN }], appointments := [],
          realEstates := [{ id := 3, owner := 11, agent := some 12 }],
          insurances := [], visas := [], taxes := [] }
        ServiceType.REAL_ESTATE (some 3) = Except.ok 12
    ∧ resolveStaffId
        { users := [{ id := 7, role := Role.ADMIN }], appointments := [],
          realEstates := [{ id := 3, owner := 11, agent := some 12 }],
          insurances := [], visas := [], taxes := [] }
        ServiceType.OTHER none = Except.ok 7 :=
  ⟨(staffResolution_priority
      { users := [{ id := 7, role := Role.ADMIN }], appointments := [],
        realEstates := [{ id := 3, owner := 11, agent := some 12 }],
        insurances := [], visas := [], taxes := [] } 3).1
      { id := 3, owner := 11, agent := some 12 } 12 (by decide) (by decide),
   (staffResolution_priority
      { users := [{ id := 7, role := Role.ADMIN }], appointments := [],
        realEstates := [{ id := 3, owner := 11, agent := some 12 }],
        insurances := [], visas := [], taxes := [] } 3).2.2.2.2.2.2
      ServiceType.OTHER none { id := 7, role := Role.ADMIN } (by decide) (by decide)⟩

/-- C7: `cancel` on an existing appointment by an authorized actor
(client, assigned staff, or administrator) fails with
`InvalidTransition` whenever the current status is neither `SCHEDULED`
nor `RESCHEDULED`, and in that case the store is unchanged and no
notification is sent. -/
theorem cancelAppointment_invalid_transition
    (db : Db) (p : Payload) (apptId : Nat) (reason : Option String) (now : Int)
    (a : Appointment)
    (ha : findAppointment db apptId = some a)
    (hauth : p.isAdmin = true ∨ p.role = Role.ADMIN ∨ a.client = p.id ∨ a.staff = p.id)
    (hst : a.status ≠ Status.SCHEDULED ∧ a.status ≠ Status.RESCHEDULED) :
    cancelAppointment db p apptId reason now
      = (Except.error ApptError.InvalidTransition, db, []) := by
  have hperm : ¬(¬(p.isAdmin = true ∨ p.role = Role.ADMIN) ∧ a.client ≠ p.id ∧ a.staff ≠ p.id) := by
    tauto
  have htrans : ¬(a.status = Status.SCHEDULED ∨ a.status = Status.RESCHEDULED) := by
    tauto
  simp only [cancelAppointment, ha]
  rw [if_neg hperm, if_pos htrans]

/-- C7 witness: the client attempting to cancel an already-`CANCELLED`
appointment gets `InvalidTransition` with no state or notification side
effect. -/
theorem cancelAppointment_invalid_transition_witness :
    findAppointment exDbCancelled 1 = some exCancelled
    ∧ cancelAppointment exDbCancelled { id := 5, isAdmin := false, role := Role.USER } 1 none 50
      = (Except.error ApptError.InvalidTransition, exDbCancelled, []) :=
  ⟨by decide,
   cancelAppointment_invalid_transition exDbCancelled
     { id := 5, isAdmin := false, role := Role.USER } 1 none 50 exCancelled
     (by decide) (by right; right; left; decide) (by decide)⟩

/-- C9: a creation request whose `startTime` is not strictly in the
future is rejected by the route's validator with a validation error,
before the controller runs: the store is unchanged, no notification is
sent, and no staff resolution error can surface. -/
theorem postAppointment_rejects_past_start
    (db : Db) (clientId newId : Nat) (i : RequestInput) (now : Int)
    (h : i.startTime ≤ now) :
    postAppointment db clientId newId i now
        = (Except.error (ApptError.ValidationError (appointmentRequestValidator now i)), db, [])
      ∧ ("Start time must be in the future") ∈ appointmentRequestValidator now i := by
  have hmem : ("Start time must be in the future") ∈ appointmentRequestValidator now i := by
    unfold appointmentRequestValidator
    simp [h]
  have hne : appointmentRequestValidator now i ≠ [] := by
    intro hnil
    rw [hnil] at hmem
    exact List.not_mem_nil _ hmem
  exact ⟨by simp only [postAppointment, if_neg hne], hmem⟩

/-- C9 witness: a request with `startTime = 40` at `now = 50` is
rejected by validation with the store untouched. -/
theorem postAppointment_rejects_past_start_witness :
    (40 : Int) ≤ 50
    ∧ (postAppointment
        { users := [{ id := 7, role := Role.ADMIN }], appointments := [],
          realEstates := [], insurances := [], visas := [], taxes := [] }
        5 2
        { title := "abc", description := "", startTime := 40, endTime := 60,
          serviceType := ServiceType.OTHER, serviceId := none, location := none }
        50
        = (Except.error (ApptError.ValidationError (appointmentRequestValidator 50
             { title := "abc", description := "", startTime := 40, endTime := 60,
               serviceType := ServiceType.OTHER, serviceId := none, location := none })),
           { users := [{ id := 7, role := Role.ADMIN }], appointments := [],
             realEstates := [], insurances := [], visas := [], taxes := [] },
           [])
      ∧ ("Start time must be in the future") ∈ appointmentRequestValidator 50
          { title := "abc", description := "", startTime := 40, endTime := 60,
            serviceType := ServiceType.OTHER, serviceId := none, location := none }) :=
  ⟨by decide,
   postAppointment_rejects_past_start
     { users := [{ id := 7, role := Role.ADMIN }], appointments := [],
       realEstates := [], insurances := [], visas := [], taxes := [] }
     5 2
     { title := "abc", description := "", startTime := 40, endTime := 60,
       serviceType := ServiceType.OTHER, serviceId := none, location := none }
     50 (by decide)⟩

/-- C10: `reassign` by an administrator with `newStaffId` equal to the
currently assigned staff succeeds: the staff field is written, the
update timestamp is stamped with the present call, the (unchanged) staff
member and the client are notified, and no previous-staff reassignment
notification is sent. -/
theorem reassignAppointment_same_staff
    (db : Db) (p : Payload) (apptId staffId : Nat) (now : Int)
    (a : Appointment) (w : User)
    (hadmin : p.isAdmin = true ∨ p.role = Role.ADMIN)
    (hw : findUser db staffId = some w)
    (ha : findAppointment db apptId = some a)
    (hsame : a.staff = staffId) :
    reassignAppointment db p apptId staffId now
      = (Except.ok ({ a with staff := staffId, updated_at := now }),
         saveAppointment db { a with staff := staffId, updated_at := now },
         [Notification.staffNew staffId, Notification.clientReassigned a.client]) := by
  simp only [reassignAppointment, hw, ha]
  rw [if_neg (not_not_intro hadmin), if_neg (by simp [hsame])]
  rfl

/-- C10 witness: the administrator reassigns the scheduled appointment to
its current staff member 9; the call succeeds, stamps `updated_at`, and
notifies only staff 9 and the client. -/
theorem reassignAppointment_same_staff_witness :
    findUser exDbScheduled 9 = some exAgent
    ∧ findAppointment exDbScheduled 1 = some exScheduled
    ∧ reassignAppointment exDbScheduled { id := 7, isAdmin := false, role := Role.ADMIN } 1 9 50
      = (Except.ok ({ exScheduled with staff := 9, updated_at := 50 }),
         saveAppointment exDbScheduled { exScheduled with staff := 9, updated_at := 50 },
         [Notification.staffNew 9, Notification.clientReassigned exScheduled.client]) :=
  ⟨by decide, by decide,
   reassignAppointment_same_staff exDbScheduled
     { id := 7, isAdmin := false, role := Role.ADMIN } 1 9 50 exScheduled exAgent
     (by right; decide) (by decide) (by decide) (by decide)⟩

/-- C1 counterexample: on an appointment whose status is `CANCELLED`, a
`changeStatus` call by the administrator requesting `CANCELLED` itself
does NOT fail with `InvalidTransition` — the guard only rejects targets
other than `CANCELLED` — so the call succeeds and re-stamps
`updated_at`. -/
theorem changeStatus_cancelled_to_cancelled_succeeds :
    (changeStatus exDbCancelled 7 1 ("CANCELLED") none 50).1
      = Except.ok { exCancelled with updated_at := 50 } := by decide

/-- C1 amended: for an existing appointment whose status is `CANCELLED`,
an authorized `changeStatus` call targeting any status OTHER than
`CANCELLED` fails with `InvalidTransition` and leaves the store and
notifications untouched; targeting `CANCELLED` itself the call succeeds,
keeping the status `CANCELLED`, appending the notes and stamping
`updated_at`. -/
theorem changeStatus_cancelled_terminal
    (db : Db) (userId apptId : Nat) (statusStr : String) (notes : Option String)
    (now : Int) (a : Appointment) (u : User) (st : Status)
    (hp : parseStatus statusStr = some st)
    (ha : findAppointment db apptId = some a)
    (hu : findUser db userId = some u)
    (hrole : u.role = Role.ADMIN ∨ a.staff = userId)
    (hs : a.status = Status.CANCELLED) :
    (st ≠ Status.CANCELLED →
      changeStatus db userId apptId statusStr notes now
        = (Except.error ApptError.InvalidTransition, db, []))
    ∧ (st = Status.CANCELLED →
      changeStatus db userId apptId statusStr notes now
        = (Except.ok ({ a with
             status := st,
             description := a.description ++ statusNoteText notes,
             updated_at := now }),
           saveAppointment db { a with
             status := st,
             description := a.description ++ statusNoteText notes,
             updated_at := now },
           [Notification.statusChange a.client])) := by
  have hperm : ¬(u.role ≠ Role.ADMIN ∧ a.staff ≠ userId) := by tauto
  constructor
  · intro hne
    simp only [changeStatus, hp, ha, hu]
    rw [if_neg hperm, if_pos ⟨hs, hne⟩]
  · intro heq
    simp only [changeStatus, hp, ha, hu]
    rw [if_neg hperm, if_neg (by intro hand; exact hand.2 heq)]

/-- C1 amended witness: the administrator requesting `COMPLETED` on the
cancelled appointment receives `InvalidTransition` with no side
effects. -/
theorem changeStatus_cancelled_terminal_witness :
    parseStatus ("COMPLETED") = some Status.COMPLETED
    ∧ findAppointment exDbCancelled 1 = some exCancelled
    ∧ ((Status.COMPLETED ≠ Status.CANCELLED →
        changeStatus exDbCancelled 7 1 ("COMPLETED") none 50
          = (Except.error ApptError.InvalidTransition, exDbCancelled, []))
      ∧ (Status.COMPLETED = Status.CANCELLED →
        changeStatus exDbCancelled 7 1 ("COMPLETED") none 50
          = (Except.ok ({ exCancelled with
               status := Status.COMPLETED,
               description := exCancelled.description ++ statusNoteText none,
               updated_at := 50 }),
             saveAppointment exDbCancelled { exCancelled with
               status := Status.COMPLETED,
               description := exCancelled.description ++ statusNoteText none,
               updated_at := 50 },
             [Notification.statusChange exCancelled.client]))) :=
  ⟨by decide, by decide,
   changeStatus_cancelled_terminal exDbCancelled 7 1 ("COMPLETED") none 50
     exCancelled exAdmin Status.COMPLETED
     (by decide) (by decide) (by decide) (by left; decide) (by decide)⟩

/-- C2 counterexample: the requesting client (user 5, the client of the
appointment, not its staff and not an administrator) calling
`updateDetails` on their own `SCHEDULED` appointment receives
`Forbidden` — the controller grants no client access at all. -/
theorem updateAppointment_client_forbidden :
    updateAppointment exDbScheduled 5 1 {} 50
      = (Except.error ApptError.Forbidden, exDbScheduled, []) := by decide

/-- C2 amended: `updateDetails` on an existing appointment is permitted
only for the assigned staff member or an administrator — the requesting
client has no special access even while the status is `SCHEDULED` — and
for permitted actors only title, description, startTime, endTime,
location, status and reminders are settable (staff additionally for
administrators); every other actor receives `Forbidden` with the store
untouched. -/
theorem updateAppointment_staff_or_admin_only
    (db : Db) (userId apptId : Nat) (u : UpdateFields) (now : Int)
    (a : Appointment) (user : User)
    (ha : findAppointment db apptId = some a)
    (hu : findUser db userId = some user) :
    (user.role ≠ Role.ADMIN ∧ a.staff ≠ userId →
      updateAppointment db userId apptId u now
        = (Except.error ApptError.Forbidden, db, []))
    ∧ (user.role = Role.ADMIN ∨ a.staff = userId →
      (updateAppointment db userId apptId u now).1
        = Except.ok (applyUpdates (user.role == Role.ADMIN) a u now))
    ∧ (applyUpdates (user.role == Role.ADMIN) a u now).id = a.id
    ∧ (applyUpdates (user.role == Role.ADMIN) a u now).client = a.client
    ∧ (applyUpdates (user.role == Role.ADMIN) a u now).serviceType = a.serviceType
    ∧ (user.role ≠ Role.ADMIN →
      (applyUpdates (user.role == Role.ADMIN) a u now).staff = a.staff) := by
  refine ⟨?_, ?_, rfl, rfl, rfl, ?_⟩
  · intro hforb
    simp only [updateAppointment, ha, hu]
    rw [if_pos hforb]
  · intro hperm
    simp only [updateAppointment, ha, hu]
    rw [if_neg (by tauto)]
  · intro hnadm
    simp [applyUpdates, hnadm]

/-- C2 amended witness: the assigned staff member (user 9) updating the
scheduled appointment succeeds with only the allowlisted fields applied;
non-allowlisted fields (client, serviceType) and — for a non-admin — the
staff field are unchanged. -/
theorem updateAppointment_staff_or_admin_only_witness :
    findAppointment exDbScheduled 1 = some exScheduled
    ∧ findUser exDbScheduled 9 = some exAgent
    ∧ ((exAgent.role ≠ Role.ADMIN ∧ exScheduled.staff ≠ 9 →
        updateAppointment exDbScheduled 9 1 {} 50
          = (Except.error ApptError.Forbidden, exDbScheduled, []))
      ∧ (exAgent.role = Role.ADMIN ∨ exScheduled.staff = 9 →
        (updateAppointment exDbScheduled 9 1 {} 50).1
          = Except.ok (applyUpdates (exAgent.role == Role.ADMIN) exScheduled {} 50))
      ∧ (applyUpdates (exAgent.role == Role.ADMIN) exScheduled {} 50).id = exScheduled.id
      ∧ (applyUpdates (exAgent.role == Role.ADMIN) exScheduled {} 50).client = exScheduled.client
      ∧ (applyUpdates (exAgent.role == Role.ADMIN) exScheduled {} 50).serviceType
          = exScheduled.serviceType
      ∧ (exAgent.role ≠ Role.ADMIN →
        (applyUpdates (exAgent.role == Role.ADMIN) exScheduled {} 50).staff
          = exScheduled.staff)) :=
  ⟨by decide, by decide,
   updateAppointment_staff_or_admin_only exDbScheduled 9 1 {} 50 exScheduled exAgent
     (by decide) (by decide)⟩

/-- C3 counterexample: a non-administrator invoking `reassign` on a
store containing NO appointment with the requested id receives
`Forbidden`, not `NotFound` — the role check runs before the existence
check. -/
theorem reassignAppointment_role_before_existence :
    reassignAppointment exDbEmpty { id := 5, isAdmin := false, role := Role.USER } 1 9 50
      = (Except.error ApptError.Forbidden, exDbEmpty, []) := by decide

/-- C3 amended: the evaluation order depends on the operation.
`updateDetails` and `cancel` check appointment existence first;
`changeStatus` checks status validity, then appointment existence, then
role, then transition legality — so with a valid status a non-existent
appointment yields `NotFound`; `reassign` checks the administrator role
first, then new-staff existence, then appointment existence — so a
non-administrator on a non-existent appointment receives `Forbidden`,
and an administrator naming a missing staff user receives the staff
`NotFound` even when the appointment is missing too. In each operation
the first failing check in that operation's order determines the
error. -/
theorem lifecycle_error_order
    (db : Db) (p : Payload) (userId apptId staffId : Nat) (u : UpdateFields)
    (statusStr : String) (notes reason : Option String) (now : Int) :
    (findAppointment db apptId = none →
      updateAppointment db userId apptId u now
        = (Except.error ApptError.AppointmentNotFound, db, []))
    ∧ (findAppointment db apptId = none →
      cancelAppointment db p apptId reason now
        = (Except.error ApptError.AppointmentNotFound, db, []))
    ∧ (parseStatus statusStr = none →
      changeStatus db userId apptId statusStr notes now
        = (Except.error ApptError.InvalidStatus, db, []))
    ∧ (∀ st, parseStatus statusStr = some st → findAppointment db apptId = none →
      changeStatus db userId apptId statusStr notes now
        = (Except.error ApptError.AppointmentNotFound, db, []))
    ∧ (¬(p.isAdmin = true ∨ p.role = Role.ADMIN) →
      reassignAppointment db p apptId staffId now
        = (Except.error ApptError.Forbidden, db, []))
    ∧ ((p.isAdmin = true ∨ p.role = Role.ADMIN) → findUser db staffId = none →
      reassignAppointment db p apptId staffId now
        = (Except.error ApptError.StaffUserNotFound, db, []))
    ∧ (∀ w, (p.isAdmin = true ∨ p.role = Role.ADMIN) → findUser db staffId = some w →
      findAppointment db apptId = none →
      reassignAppointment db p apptId staffId now
        = (Except.error ApptError.AppointmentNotFound, db, [])) := by
  refine ⟨?_, ?_, ?_, ?_, ?_, ?_, ?_⟩
  · intro h; simp [updateAppointment, h]
  · intro h; simp [cancelAppointment, h]
  · intro h; simp [changeStatus, h]
  · intro st hst h; simp [changeStatus, hst, h]
  · intro h; simp only [reassignAppointment]; rw [if_pos h]
  · intro h hw
    simp only [reassignAppointment, hw]
    rw [if_neg (not_not_intro h)]
  · intro w h hw ha
    simp only [reassignAppointment, hw, ha]
    rw [if_neg (not_not_intro h)]

/-- C3 amended witness: on the empty store, the non-admin gets
`Forbidden` from `reassign` while `changeStatus` with the valid status
`COMPLETED` reports the missing appointment. -/
theorem lifecycle_error_order_witness :
    findAppointment exDbEmpty 1 = none
    ∧ parseStatus ("COMPLETED") = some Status.COMPLETED
    ∧ changeStatus exDbEmpty 7 1 ("COMPLETED") none 50
        = (Except.error ApptError.AppointmentNotFound, exDbEmpty, [])
    ∧ reassignAppointment exDbEmpty { id := 5, isAdmin := false, role := Role.USER } 1 9 50
        = (Except.error ApptError.Forbidden, exDbEmpty, []) :=
  ⟨by decide, by decide,
   (lifecycle_error_order exDbEmpty { id := 5, isAdmin := false, role := Role.USER }
      7 1 9 {} ("COMPLETED") none none 50).2.2.2.1 Status.COMPLETED (by decide) (by decide),
   (lifecycle_error_order exDbEmpty { id := 5, isAdmin := false, role := Role.USER }
      7 1 9 {} ("COMPLETED") none none 50).2.2.2.2.1 (by decide)⟩

/-- After marking, a reminder is never due again: it is either sent now
or was not due in the first place. -/
theorem reminderDue_markSent (now : Int) (r : Reminder) :
    reminderDue now (markSent now r) = false := by
  unfold markSent
  split
  · simp [reminderDue]
  · rename_i h
    simpa using h

/-- Marking is idempotent on a single reminder. -/
theorem markSent_idem (now : Int) (r : Reminder) :
    markSent now (markSent now r) = markSent now r := by
  unfold markSent
  split
  · simp [reminderDue]
  · rfl

/-- No reminder of an already-marked list passes the due-and-unsent
filter. -/
theorem filter_due_map_markSent (now : Int) (l : List Reminder) :
    (l.map (markSent now)).filter (reminderDue now) = [] := by
  induction l with
  | nil => rfl
  | cons r t ih => simp [List.filter_cons, reminderDue_markSent, ih]

/-- Marking a list twice equals marking it once. -/
theorem map_markSent_idem (now : Int) (l : List Reminder) :
    (l.map (markSent now)).map (markSent now) = l.map (markSent now) := by
  induction l with
  | nil => rfl
  | cons r t ih => simp [markSent_idem, ih]

/-- Scanning an appointment that was just scanned changes nothing and
dispatches nothing. -/
theorem reminderStep_idem (now : Int) (a : Appointment) :
    reminderStep now (reminderStep now a).1 = ((reminderStep now a).1, []) := by
  unfold reminderStep
  by_cases h : matchesReminderQuery now a = true
  · rw [if_pos h]
    by_cases h2 : matchesReminderQuery now (scanAppointment now a).1 = true
    · rw [if_pos h2]
      show scanAppointment now { a with reminders := a.reminders.map (markSent now) }
        = ({ a with reminders := a.reminders.map (markSent now) }, [])
      unfold scanAppointment
      rw [map_markSent_idem, filter_due_map_markSent]
      rfl
    · rw [if_neg h2]
  · rw [if_neg h, if_neg h]

/-- One scan marks every due unsent reminder of every query-matching
appointment; the notification list is one entry per such reminder. -/
theorem length_flatten_steps (now : Int) (l : List Appointment) :
    ((l.map (fun a => (reminderStep now a).2)).flatten).length
      = ((l.filter (fun a => matchesReminderQuery now a)).map
          (fun a => (a.reminders.filter (reminderDue now)).length)).sum := by
  induction l with
  | nil => rfl
  | cons a t ih =>
    rw [List.map_cons, List.flatten_cons, List.length_append, ih]
    unfold reminderStep
    by_cases h : matchesReminderQuery now a = true
    · rw [if_pos h, List.filter_cons_of_pos h, List.map_cons, List.sum_cons]
      simp [scanAppointment]
    · rw [if_neg h, List.filter_cons_of_neg h]
      simp

/-- Second-run contributions are all empty. -/
theorem flatten_second_steps (now : Int) (l : List Appointment) :
    ((l.map (fun a => (reminderStep now a).1)).map
        (fun a => (reminderStep now a).2)).flatten = [] := by
  induction l with
  | nil => rfl
  | cons a t ih =>
    have h := congrArg Prod.snd (reminderStep_idem now a)
    simpa [h] using ih

/-- First-run states are fixed points of the step. -/
theorem map_first_steps_idem (now : Int) (l : List Appointment) :
    ((l.map (fun a => (reminderStep now a).1)).map
        (fun a => (reminderStep now a).1))
      = l.map (fun a => (reminderStep now a).1) := by
  induction l with
  | nil => rfl
  | cons a t ih =>
    have h := congrArg Prod.fst (reminderStep_idem now a)
    simpa [h] using ih

/-- C8: the reminder scan is idempotent. For every store state, running
the scan a second time immediately after a first run (with every
dispatch succeeding) changes nothing and dispatches nothing, and the
first run dispatches exactly one notification per due unsent reminder
of each query-matching appointment. -/
theorem sendAppointmentReminders_idempotent (now : Int) (db : Db) :
    sendAppointmentReminders now (sendAppointmentReminders now db).1
        = ((sendAppointmentReminders now db).1, [])
    ∧ (sendAppointmentReminders now db).2.length
        = ((db.appointments.filter (fun a => matchesReminderQuery now a)).map
            (fun a => (a.reminders.filter (reminderDue now)).length)).sum := by
  constructor
  · unfold sendAppointmentReminders
    simp only [map_first_steps_idem, flatten_second_steps]
  · exact length_flatten_steps now db.appointments

end ServiceWebsite
